import Mathlib

/-!
Verification of the Jenkins Job/View/Build facade (`libraries/jenkins_api.py`,
`libraries/jenkins_server.py`) and its tool adapters (`tools/tool_jenkins_build.py`,
`tools/tool_jenkins_view.py`) as a shallow embedding in Lean 4.

External collaborators (the `jenkinsapi` client, the `requests` HTTP library and the
`re` regex engine) are modelled by explicit environment parameters or by small
executable fragments restricted to the behaviour the facade actually exercises.
-/

namespace McpJenkins

/- ============ Model of the `re` engine fragment used by `search_job` ============ -/

/-- A compiled regex token.  `search_job` only ever feeds `re.search` a pattern produced
by `re.escape`, whose tokens are all literal characters; `dot` exists to express what the
engine would do with an UNescaped `.` metacharacter. -/
inductive RTok
  | lit (c : Char)
  | dot
deriving Repr, DecidableEq

/-- Does one token match one character (case-sensitive)? -/
def tokMatch : RTok → Char → Bool
  | .lit c, d => c == d
  | .dot, _ => true

/-- Does one token match one character under `re.IGNORECASE` (modelled by
case-folding both sides with `Char.toLower`)? -/
def tokMatchCI : RTok → Char → Bool
  | .lit c, d => c.toLower == d.toLower
  | .dot, _ => true

/-- Does the token list match a prefix of the text (case-sensitive)? -/
def matchAt : List RTok → List Char → Bool
  | [], _ => true
  | _ :: _, [] => false
  | t :: ts, c :: cs => tokMatch t c && matchAt ts cs

/-- Does the token list match a prefix of the text (case-insensitive)? -/
def matchAtCI : List RTok → List Char → Bool
  | [], _ => true
  | _ :: _, [] => false
  | t :: ts, c :: cs => tokMatchCI t c && matchAtCI ts cs

/-- Models `re.search(pattern, text)`: does the pattern match at some position of the text? -/
def reSearch (p : List RTok) : List Char → Bool
  | [] => matchAt p []
  | c :: cs => matchAt p (c :: cs) || reSearch p cs

/-- Models `re.search(pattern, text, re.IGNORECASE)`. -/
def reSearchCI (p : List RTok) : List Char → Bool
  | [] => matchAtCI p []
  | c :: cs => matchAtCI p (c :: cs) || reSearchCI p cs

/-- Models `re.escape(s)`: every character of `s` becomes a literal token (`re.escape`
backslash-escapes every regex metacharacter, and an escaped metacharacter matches
itself literally). -/
def reEscape (s : String) : List RTok :=
  s.toList.map RTok.lit

/-- How the `re` engine would compile the raw (UNescaped) pattern on the fragment of
regex syntax relevant here: `.` is a match-any-character metacharacter, every other
character is a literal. -/
def parseDotRegex (s : String) : List RTok :=
  s.toList.map (fun c => if c == '.' then RTok.dot else RTok.lit c)

/-- Specification-side definition: `p` occurs literally as a contiguous substring
of the text (case-sensitive). -/
def litPrefixAt : List Char → List Char → Bool
  | [], _ => true
  | _ :: _, [] => false
  | c :: cs, d :: ds => c == d && litPrefixAt cs ds

/-- Specification-side definition of literal substring containment. -/
def litContains (p : List Char) : List Char → Bool
  | [] => litPrefixAt p []
  | d :: ds => litPrefixAt p (d :: ds) || litContains p ds

/- ============ Data model: builds, jobs, views, server state ============ -/

/-- A build as observed through the facade (the `jenkinsapi` build object fields that
`jenkins_api.py` projects): number, UTC start timestamp, duration in milliseconds,
status, run parameters, console text. -/
structure Build where
  number : Nat
  timestamp : Int
  duration : Int
  status : Option String
  params : List (String × String)
  console : String
deriving Repr, DecidableEq

/-- A job as observed through the facade: its name, the `is_queued_or_running()`
flag, its builds, its declared parameter definitions (each exposing the
`defaultParameterValue` `name`/`value` pair), and its base URL. -/
structure Job where
  name : String
  queuedOrRunning : Bool
  builds : List Build
  paramDefs : List (String × String)
  baseurl : String
deriving Repr, DecidableEq

/-- The remote Jenkins server as seen through the `jenkinsapi` handle: its jobs and
its global views (view name paired with the view's member job names). -/
structure Server where
  jobs : List Job
  views : List (String × List String)
deriving Repr, DecidableEq

/-- One element of the `jobs` array of the per-user my-views JSON document;
`name` is `none` when the entry lacks a `"name"` field. -/
structure MyViewEntry where
  name : Option String
deriving Repr, DecidableEq

/-- The JSON document returned by `{base}/user/{username}/my-views/view/{name}/api/json`;
a document without a `"jobs"` field is modelled by an empty list (`data.get("jobs", {})`
iterates over nothing in that case). -/
structure MyViewDoc where
  jobs : List MyViewEntry
deriving Repr, DecidableEq

/-- Outcome of the authenticated `requests.get` + `raise_for_status` on the per-user
my-views endpoint, per view name: `.ok` with the parsed JSON document, or `.error`
for the `requests.HTTPError` that `raise_for_status` raises on a failure status. -/
def HttpEnv : Type := String → Except Unit MyViewDoc

/-- Outcomes of the fallible remote mutator calls on the `jenkinsapi` handle
(each may raise; the payload of `.error` is the exception message). -/
structure RemoteEnv where
  copyJob : String → String → Except String Job
  renameJob : String → String → Except String Job
  deleteJob : String → Except String Unit
  buildJob : String → Option (List (String × String)) → Except String Unit

/-- A Python-level fault that escapes a modelled call. -/
inductive PyErr
  | attributeError (attr : String)
  | notFound (what : String)
  | outsideModel (attr : String)
deriving Repr, DecidableEq

/- ============ Facade: job operations (jenkins_api.py) ============ -/

/-- Embeds `JenkinsAPI.is_job_exists`: `self.jenkins_server.has_job(job_name)`. -/
def is_job_exists (st : Server) (jobName : String) : Bool :=
  st.jobs.any (fun j => j.name == jobName)

/-- Embeds `JenkinsAPI.get_job`: returns the job iff `is_job_exists`, else `None`
(the Python function falls off the end, returning `None`). -/
def get_job (st : Server) (jobName : String) : Option Job :=
  if is_job_exists st jobName then
    st.jobs.find? (fun j => j.name == jobName)
  else
    none

/-- Embeds `JenkinsAPI.is_job_queued_or_running`: `job = self.get_job(job_name)` followed by
`job.is_queued_or_running()` with no absence guard — when `get_job` returns `None`,
the attribute call on `None` raises `AttributeError`. -/
def is_job_queued_or_running (st : Server) (jobName : String) : Except PyErr Bool :=
  match get_job st jobName with
  | some job => .ok job.queuedOrRunning
  | none => .error (.attributeError "is_queued_or_running")

/-- Python dict insertion `params[k] = v` on an association list: overwrite the
existing binding, else append. -/
def assocSet (m : List (String × String)) (k v : String) : List (String × String) :=
  if m.any (fun p => p.1 == k) then
    m.map (fun p => if p.1 == k then (k, v) else p)
  else
    m ++ [(k, v)]

/-- Embeds `JenkinsAPI.get_job_default_params`: iff the job exists, fold its parameter
definitions into a dict; else `None`. -/
def get_job_default_params (st : Server) (jobName : String) :
    Option (List (String × String)) :=
  if is_job_exists st jobName then
    match st.jobs.find? (fun j => j.name == jobName) with
    | some job => some (job.paramDefs.foldl (fun m p => assocSet m p.1 p.2) [])
    | none => some []
  else
    none

/-- Embeds `JenkinsAPI.clone_job`: guarded by `is_job_exists`; the remote `copy_job` call
may raise and is caught, yielding `None`; a non-existing source also yields `None`. -/
def clone_job (env : RemoteEnv) (st : Server) (jobName newJobName : String) :
    Option Job :=
  if is_job_exists st jobName then
    match env.copyJob jobName newJobName with
    | .ok j => some j
    | .error _ => none
  else
    none

/-- Embeds `JenkinsAPI.rename_job`: same guard/catch pattern as `clone_job`. -/
def rename_job (env : RemoteEnv) (st : Server) (jobName newJobName : String) :
    Option Job :=
  if is_job_exists st jobName then
    match env.renameJob jobName newJobName with
    | .ok j => some j
    | .error _ => none
  else
    none

/-- Embeds `JenkinsAPI.delete_job`: iff the job exists, issue the remote delete inside
try/except and return `True` on success; every other path reaches `return False`. -/
def delete_job (env : RemoteEnv) (st : Server) (jobName : String) : Bool :=
  if is_job_exists st jobName then
    match env.deleteJob jobName with
    | .ok _ => true
    | .error _ => false
  else
    false

/-- Embeds `JenkinsAPI.build_job`: iff the job exists, trigger the build inside try/except
and return `True` on success, `False` on a caught fault; else `False`. -/
def build_job (env : RemoteEnv) (st : Server) (jobName : String)
    (params : Option (List (String × String))) : Bool :=
  if is_job_exists st jobName then
    match env.buildJob jobName params with
    | .ok _ => true
    | .error _ => false
  else
    false

/- ============ Facade: view operations ============ -/

/-- Embeds `JenkinsAPI.get_views`: the names of all global views. -/
def get_views (st : Server) : List String :=
  st.views.map (fun v => v.1)

/-- Embeds `JenkinsAPI.get_view`: membership test against `get_views`, then the handle's
view lookup; a view is observed through `list(view.keys())`, its member job names. -/
def get_view (st : Server) (viewName : String) : Option (List String) :=
  if (get_views st).contains viewName then
    (st.views.find? (fun v => v.1 == viewName)).map (fun v => v.2)
  else
    none

/-- Embeds `JenkinsAPI.get_jobs_from_view`: a resolved global view yields its member job
names; otherwise fall back to the authenticated HTTP GET on the per-user my-views
endpoint, collecting the `name` field of each entry of the `jobs` array (entries
lacking a `name` are skipped); a caught `requests.HTTPError` yields `None`. -/
def get_jobs_from_view (env : HttpEnv) (st : Server) (viewName : String) :
    Option (List String) :=
  match get_view st viewName with
  | some view => some view
  | none =>
    match env viewName with
    | .ok data => some (data.jobs.filterMap (fun j => j.name))
    | .error _ => none

/- ============ Facade: search ============ -/

/-- Python truthiness of the `view_name: str = None` argument: `None` and the empty
string are falsy. -/
def pyTruthyStr : Option String → Bool
  | none => false
  | some s => !s.isEmpty

/-- Lines 139-143 of `search_job`: escape the search string, then keep the jobs the
(case-sensitive or case-insensitive) regex search accepts, in source order. -/
def searchFilter (allJobs : List String) (searchString : String)
    (isCaseSensitive : Bool) : List String :=
  let pat := reEscape searchString
  if isCaseSensitive then
    allJobs.filter (fun job => reSearch pat job.toList)
  else
    allJobs.filter (fun job => reSearchCI pat job.toList)

/-- Embeds `JenkinsAPI.search_job`: resolve the source job list (a truthy view name via
`get_view`, then `get_jobs_from_view`, returning `[]` when both fail; otherwise
`get_jobs_list()`, the names of all jobs), then apply the escaped-substring filter. -/
def search_job (env : HttpEnv) (st : Server) (searchString : String)
    (viewName : Option String) (isCaseSensitive : Bool) : List String :=
  if pyTruthyStr viewName then
    match viewName with
    | none => []
    | some vn =>
      match get_view st vn with
      | some view => searchFilter view searchString isCaseSensitive
      | none =>
        match get_jobs_from_view env st vn with
        | some jobsList => searchFilter jobsList searchString isCaseSensitive
        | none => []
  else
    searchFilter (st.jobs.map Job.name) searchString isCaseSensitive

/- ============ Facade: build operations ============ -/

/-- Models the `jenkinsapi` method `Job.get_last_build_or_none()`: the build with the greatest number,
or `None` for a job that has never run. -/
def lastBuildOrNone (j : Job) : Option Build :=
  j.builds.foldl
    (fun acc b =>
      match acc with
      | none => some b
      | some a => if a.number < b.number then some b else some a)
    none

/-- Models the `jenkinsapi` method `Job.get_build(n)`: the build with that number; raises when the
job has no such build. -/
def getBuildByNumber (j : Job) (n : Nat) : Except PyErr Build :=
  match j.builds.find? (fun b => b.number == n) with
  | some b => .ok b
  | none => .error (.notFound "build")

/-- Embeds `JenkinsAPI.get_build`: resolve the job; with `build_number=None` take the last
build or `None`, else fetch that specific number (whose absence faults, uncaught);
an unresolved job yields `None`. -/
def get_build (st : Server) (jobName : String) (buildNumber : Option Nat) :
    Except PyErr (Option Build) :=
  match get_job st jobName with
  | some job =>
    match buildNumber with
    | none => .ok (lastBuildOrNone job)
    | some n =>
      match getBuildByNumber job n with
      | .ok b => .ok (some b)
      | .error e => .error e
  | none => .ok none

/-- Embeds `JenkinsAPI.stop_last_build`: resolve the job, then its last build; no last
build logs a warning and returns `False` with no stop call; no job returns `False`;
otherwise issue `build.stop()` and return its result.  `stopEnv` models the remote
stop call; the second component of the result records whether a stop call was
issued at all. -/
def stop_last_build (stopEnv : Build → Bool) (st : Server) (jobName : String) :
    Bool × Bool :=
  match get_job st jobName with
  | some job =>
    match lastBuildOrNone job with
    | some build => (stopEnv build, true)
    | none => (false, false)
  | none => (false, false)

/-- Embeds `JenkinsAPI.get_last_build_number`: project `get_number()` from
`get_build(job_name)` (build number defaulted to `None`). -/
def get_last_build_number (st : Server) (jobName : String) :
    Except PyErr (Option Nat) :=
  match get_build st jobName none with
  | .ok (some b) => .ok (some b.number)
  | .ok none => .ok none
  | .error e => .error e

/-- Models `datetime.astimezone()`: re-expresses the same instant in the local zone; the
instant itself is what the model carries. -/
def utcToLocal (t : Int) : Int := t

/-- Embeds `JenkinsAPI.get_build_start_time`: project the timestamp of the resolved build,
converted to local time. -/
def get_build_start_time (st : Server) (jobName : String) (buildNumber : Option Nat) :
    Except PyErr (Option Int) :=
  match get_build st jobName buildNumber with
  | .ok (some b) => .ok (some (utcToLocal b.timestamp))
  | .ok none => .ok none
  | .error e => .error e

/-- Embeds `JenkinsAPI.get_build_duration`: project `get_duration()`. -/
def get_build_duration (st : Server) (jobName : String) (buildNumber : Option Nat) :
    Except PyErr (Option Int) :=
  match get_build st jobName buildNumber with
  | .ok (some b) => .ok (some b.duration)
  | .ok none => .ok none
  | .error e => .error e

/-- Embeds `JenkinsAPI.get_build_status`: project `get_status()`. -/
def get_build_status (st : Server) (jobName : String) (buildNumber : Option Nat) :
    Except PyErr (Option (Option String)) :=
  match get_build st jobName buildNumber with
  | .ok (some b) => .ok (some b.status)
  | .ok none => .ok none
  | .error e => .error e

/-- Embeds `JenkinsAPI.get_build_params`: project `get_params()`. -/
def get_build_params (st : Server) (jobName : String) (buildNumber : Option Nat) :
    Except PyErr (Option (List (String × String))) :=
  match get_build st jobName buildNumber with
  | .ok (some b) => .ok (some b.params)
  | .ok none => .ok none
  | .error e => .error e

/-- Embeds `JenkinsAPI.get_build_console`: project `get_console()`. -/
def get_build_console (st : Server) (jobName : String) (buildNumber : Option Nat) :
    Except PyErr (Option String) :=
  match get_build st jobName buildNumber with
  | .ok (some b) => .ok (some b.console)
  | .ok none => .ok none
  | .error e => .error e

/- ============ Connection provider (jenkins_server.py) ============ -/

/-- Embeds `JenkinsServer.model_post_init`: `ctor` is the outcome of
`Jenkins(baseurl=..., username=..., password=..., timeout=10)`, which authenticates
eagerly (it polls the server) and may raise `requests.HTTPError`; it is evaluated
BEFORE the try block.  The try body is one `logging.info` call and the assignment
`self.jenkins_server = jenkins_api`, neither of which raises `requests.HTTPError`,
so the except handler (log an error, store `None`) can never run.  The result is
the final value of `self.jenkins_server`, or the propagated constructor error. -/
def model_post_init {H : Type} (ctor : Except Unit H) : Except Unit (Option H) :=
  match ctor with
  | .error e => .error e
  | .ok jenkins_api => .ok (some jenkins_api)

/- ============ Tool adapters: build tools (tool_jenkins_build.py) ============ -/

/-- A Python value returned by a facade build getter. -/
inductive JVal
  | jnat (n : Nat)
  | jint (n : Int)
  | jstr (s : String)
  | jdict (d : List (String × String))
  | jstatus (s : Option String)
deriving Repr, DecidableEq

/-- Every method `def`ined by `class JenkinsAPI` in `libraries/jenkins_api.py`,
in source order.  Python attribute lookup on a `JenkinsAPI` instance resolves
exactly these names (plus `__init__`-assigned fields); any other attribute raises
`AttributeError`. -/
def jenkinsAPIMethodNames : List String :=
  ["is_job_exists", "is_job_queued_or_running", "get_job", "get_job_default_params",
   "get_job_baseurl", "search_job", "create_job", "clone_job", "rename_job",
   "delete_job", "build_job", "get_views", "get_view", "get_jobs_from_view",
   "get_view_baseurl", "add_job_to_view", "remove_job_from_view", "stop_last_build",
   "get_build", "get_last_build_number", "get_build_start_time", "get_build_duration",
   "get_build_status", "get_build_params", "get_build_console"]

/-- The single-value build getters of `class JenkinsAPI`, as (attribute name,
semantics) pairs; each is applied to a job name with `build_number` left at its
default `None`, as at the adapters' call sites. -/
def jenkinsAPIBuildGetters (st : Server) :
    List (String × (String → Except PyErr (Option JVal))) :=
  [ ("get_last_build_number", fun j =>
      match get_last_build_number st j with
      | .ok r => .ok (r.map JVal.jnat)
      | .error e => .error e),
    ("get_build_start_time", fun j =>
      match get_build_start_time st j none with
      | .ok r => .ok (r.map JVal.jint)
      | .error e => .error e),
    ("get_build_duration", fun j =>
      match get_build_duration st j none with
      | .ok r => .ok (r.map JVal.jint)
      | .error e => .error e),
    ("get_build_status", fun j =>
      match get_build_status st j none with
      | .ok r => .ok (r.map JVal.jstatus)
      | .error e => .error e),
    ("get_build_params", fun j =>
      match get_build_params st j none with
      | .ok r => .ok (r.map JVal.jdict)
      | .error e => .error e),
    ("get_build_console", fun j =>
      match get_build_console st j none with
      | .ok r => .ok (r.map JVal.jstr)
      | .error e => .error e) ]

/-- Python attribute resolution for the build-getter attributes the build adapters
name: a name in the getter table resolves to its semantics; a name `def`ined by the
class outside that table is signalled as `outsideModel` (no adapter in
`tool_jenkins_build.py` names one, so that branch is unreachable from the embedded
adapters); any other name raises `AttributeError`, exactly as Python does. -/
def getattrBuildGetter (st : Server) (attr : String) :
    Except PyErr (String → Except PyErr (Option JVal)) :=
  match (jenkinsAPIBuildGetters st).lookup attr with
  | some m => .ok m
  | none =>
    if jenkinsAPIMethodNames.contains attr then
      .error (.outsideModel attr)
    else
      .error (.attributeError attr)

/-- Model of `json.dumps` on the association lists the adapters serialize. -/
def jsonDumpsDict (d : List (String × String)) : String :=
  let items := d.map (fun p =>
    let k := p.1
    let v := p.2
    s!"\x22{k}\x22: \x22{v}\x22")
  let body := String.intercalate ", " items
  s!"\x7b{body}\x7d"

/-- Model of `json.dumps` on a list of strings. -/
def jsonDumpsList (l : List String) : String :=
  let items := l.map (fun s => s!"\x22{s}\x22")
  let body := String.intercalate ", " items
  s!"[{body}]"

/-- Rendering of a facade build-getter value into the adapter's message text
(Python string interpolation of the value). -/
def renderJVal : JVal → String
  | .jnat n => toString n
  | .jint n => toString n
  | .jstr s => s
  | .jdict d => jsonDumpsDict d
  | .jstatus s =>
    match s with
    | some v => v
    | none => "None"

/-- Adapter `get_last_build_start_time` (tool_jenkins_build.py): the body evaluates
`JenkinsAPI().get_last_build_start_time(job_name)`.  `class JenkinsAPI` defines no
attribute of that name (see `jenkinsAPIMethodNames`; the facade method is
`get_build_start_time`), so the attribute lookup raises `AttributeError` and the
Successfully/Failed rendering below it is unreachable. -/
def tool_get_last_build_start_time (st : Server) (jobName : String) :
    Except PyErr String := do
  let m ← getattrBuildGetter st "get_last_build_start_time"
  let r ← m jobName
  match r with
  | some v =>
    let s := renderJVal v
    pure s!"Successfully retrieved last build start time for job {jobName}: {s}"
  | none => pure s!"Failed to retrieve last build start time for job {jobName}."

/-- Adapter `get_last_build_duration` (tool_jenkins_build.py): evaluates
`JenkinsAPI().get_last_build_duration(job_name)`; the class defines no such
attribute, so the lookup raises `AttributeError`. -/
def tool_get_last_build_duration (st : Server) (jobName : String) :
    Except PyErr String := do
  let m ← getattrBuildGetter st "get_last_build_duration"
  let r ← m jobName
  match r with
  | some v =>
    let s := renderJVal v
    pure s!"Successfully retrieved last build duration for job {jobName}: {s} ms"
  | none => pure s!"Failed to retrieve last build duration for job {jobName}."

/-- Adapter `get_last_build_status` (tool_jenkins_build.py): evaluates
`JenkinsAPI().get_last_build_status(job_name)`; the class defines no such
attribute, so the lookup raises `AttributeError`. -/
def tool_get_last_build_status (st : Server) (jobName : String) :
    Except PyErr String := do
  let m ← getattrBuildGetter st "get_last_build_status"
  let r ← m jobName
  match r with
  | some v =>
    let s := renderJVal v
    pure s!"Successfully retrieved last build status for job {jobName}: {s}"
  | none => pure s!"Failed to retrieve last build status for job {jobName}."

/-- Adapter `get_last_build_params` (tool_jenkins_build.py): evaluates
`JenkinsAPI().get_last_build_params(job_name)`; the class defines no such
attribute, so the lookup raises `AttributeError`. -/
def tool_get_last_build_params (st : Server) (jobName : String) :
    Except PyErr String := do
  let m ← getattrBuildGetter st "get_last_build_params"
  let r ← m jobName
  match r with
  | some v =>
    let s := renderJVal v
    pure s!"Successfully retrieved last build parameters for job {jobName}: {s}"
  | none => pure s!"Failed to retrieve last build parameters for job {jobName}."

/-- Adapter `get_last_build_console` (tool_jenkins_build.py): evaluates
`JenkinsAPI().get_last_build_console(job_name)`; the class defines no such
attribute, so the lookup raises `AttributeError`. -/
def tool_get_last_build_console (st : Server) (jobName : String) :
    Except PyErr String := do
  let m ← getattrBuildGetter st "get_last_build_console"
  let r ← m jobName
  match r with
  | some v =>
    let s := renderJVal v
    pure s!"Successfully retrieved last build console output for job {jobName}: {s}"
  | none => pure s!"Failed to retrieve last build console output for job {jobName}."

/-- Adapter `get_last_build_number` (tool_jenkins_build.py): this one names an
attribute the class does define, so it resolves and renders normally. -/
def tool_get_last_build_number (st : Server) (jobName : String) :
    Except PyErr String := do
  let m ← getattrBuildGetter st "get_last_build_number"
  let r ← m jobName
  match r with
  | some v =>
    let s := renderJVal v
    pure s!"Successfully retrieved last build number for job {jobName}: {s}"
  | none => pure s!"Failed to retrieve last build number for job {jobName}."

/- ============ Tool adapters: view tools (tool_jenkins_view.py) ============ -/

/-- Python truthiness of the `list | None` value `jobs` in `if jobs:`:
`None` and the empty list are both falsy. -/
def pyTruthyListOpt : Option (List String) → Bool
  | none => false
  | some l => !l.isEmpty

/-- Adapter `get_jobs_from_view` (tool_jenkins_view.py): `jobs` is the facade
result; `if jobs:` renders the member list, and BOTH the empty list and `None`
fall to the same `"No jobs found in view ..."` message. -/
def tool_get_jobs_from_view (env : HttpEnv) (st : Server) (viewName : String) :
    String :=
  let jobs := get_jobs_from_view env st viewName
  if pyTruthyListOpt jobs then
    match jobs with
    | some l =>
      let n := l.length
      let dump := jsonDumpsList l
      s!"View {viewName} contains {n} jobs: {dump}"
    | none => s!"No jobs found in view {viewName}."
  else
    s!"No jobs found in view {viewName}."

/- ============ Concrete fixtures used by witnesses ============ -/

/-- HTTP environment whose my-views request always fails with an HTTPError. -/
def envErr : HttpEnv := fun _ => .error ()

/-- HTTP environment whose my-views request succeeds with an empty jobs array. -/
def envEmptyDoc : HttpEnv := fun _ => .ok ⟨[]⟩

/-- Remote environment in which every mutator call raises. -/
def remoteEnvFail : RemoteEnv :=
  ⟨fun _ _ => .error "HTTPError", fun _ _ => .error "HTTPError",
   fun _ => .error "HTTPError", fun _ _ => .error "HTTPError"⟩

/-- A completed build used by the concrete test states. -/
def bDemo : Build := ⟨7, 1700000000, 5132, some "SUCCESS", [("ENV", "staging")], "ok"⟩

/-- A job with exactly one build. -/
def jDemo : Job := ⟨"demo", false, [bDemo], [("ENV", "staging")], "http://jenkins/job/demo"⟩

/-- A job that has never run. -/
def jFresh : Job := ⟨"fresh", false, [], [], "http://jenkins/job/fresh"⟩

/-- A server with two jobs and two global views. -/
def stDemo : Server := ⟨[jDemo, jFresh], [("v", []), ("w", ["demo"])]⟩

/-- A server with no jobs and no views. -/
def stEmpty : Server := ⟨[], []⟩

/-- A server with the single job name `axb`. -/
def stAxb : Server := ⟨[⟨"axb", false, [], [], ""⟩], []⟩

/-- A server with the single job name `Abc`. -/
def stAbc : Server := ⟨[⟨"Abc", false, [], [], ""⟩], []⟩

/-- A remote stop call that always reports success. -/
def stopAlways : Build → Bool := fun _ => true

/- ============ Helper lemmas ============ -/

theorem matchAt_map_lit (p t : List Char) :
    matchAt (p.map RTok.lit) t = litPrefixAt p t := by
  induction p generalizing t with
  | nil => cases t <;> rfl
  | cons c cs ih =>
    cases t with
    | nil => rfl
    | cons d ds => simp [matchAt, litPrefixAt, tokMatch, ih]

theorem reSearch_map_lit (p t : List Char) :
    reSearch (p.map RTok.lit) t = litContains p t := by
  induction t with
  | nil => simp [reSearch, litContains, matchAt_map_lit]
  | cons d ds ih => simp [reSearch, litContains, matchAt_map_lit, ih]

theorem reSearch_reEscape (s : String) (t : List Char) :
    reSearch (reEscape s) t = litContains s.toList t :=
  reSearch_map_lit s.toList t

theorem tokMatch_ci_of_tokMatch (tk : RTok) (c : Char) (h : tokMatch tk c = true) :
    tokMatchCI tk c = true := by
  cases tk with
  | dot => rfl
  | lit a =>
    simp only [tokMatch, beq_iff_eq] at h
    simp [tokMatchCI, h]

theorem matchAtCI_of_matchAt (p : List RTok) (t : List Char)
    (h : matchAt p t = true) : matchAtCI p t = true := by
  induction p generalizing t with
  | nil => rfl
  | cons tk ts ih =>
    cases t with
    | nil => simp [matchAt] at h
    | cons c cs =>
      simp only [matchAt, Bool.and_eq_true] at h
      simp only [matchAtCI, Bool.and_eq_true]
      exact ⟨tokMatch_ci_of_tokMatch tk c h.1, ih cs h.2⟩

theorem reSearchCI_of_reSearch (p : List RTok) (t : List Char)
    (h : reSearch p t = true) : reSearchCI p t = true := by
  induction t with
  | nil =>
    simp only [reSearch] at h
    simpa [reSearchCI] using matchAtCI_of_matchAt p [] h
  | cons c cs ih =>
    simp only [reSearch, Bool.or_eq_true] at h
    simp only [reSearchCI, Bool.or_eq_true]
    cases h with
    | inl h1 => exact Or.inl (matchAtCI_of_matchAt p (c :: cs) h1)
    | inr h2 => exact Or.inr (ih h2)

theorem mem_searchFilter_ci {L : List String} {s j : String}
    (h : j ∈ searchFilter L s true) : j ∈ searchFilter L s false := by
  simp [searchFilter, List.mem_filter] at h ⊢
  exact ⟨h.1, reSearchCI_of_reSearch _ _ h.2⟩

/- ============ Claim theorems ============ -/

/-- C1: the claim states that each of the five build tools get_last_build_start_time,
get_last_build_duration, get_last_build_status, get_last_build_params and
get_last_build_console calls exactly one existing facade method and returns a single
Successfully/Failed string for every job name, with no fault escaping the tool
boundary.  The code violates this: each of the five adapters names an attribute that
`class JenkinsAPI` does not define (the facade methods are `get_build_start_time`
etc., with only `get_last_build_number` keeping a `last` name), so every invocation
raises AttributeError and no message string is ever produced. -/
theorem c1_build_tools_attribute_fault (st : Server) (jobName : String) :
    tool_get_last_build_start_time st jobName
        = .error (.attributeError "get_last_build_start_time")
      ∧ tool_get_last_build_duration st jobName
        = .error (.attributeError "get_last_build_duration")
      ∧ tool_get_last_build_status st jobName
        = .error (.attributeError "get_last_build_status")
      ∧ tool_get_last_build_params st jobName
        = .error (.attributeError "get_last_build_params")
      ∧ tool_get_last_build_console st jobName
        = .error (.attributeError "get_last_build_console") :=
  ⟨rfl, rfl, rfl, rfl, rfl⟩

/-- C2: the claim states that for a job name absent from the server,
is_job_queued_or_running returns false without faulting and without invoking the
underlying queued-or-running check.  The code violates this: get_job returns None
for an absent job and the unguarded call `job.is_queued_or_running()` raises
AttributeError on None. -/
theorem c2_queued_or_running_faults_on_absent_job (st : Server) (jobName : String)
    (h : is_job_exists st jobName = false) :
    is_job_queued_or_running st jobName
      = .error (.attributeError "is_queued_or_running") := by
  simp [is_job_queued_or_running, get_job, h]

theorem c2_witness :
    is_job_exists stEmpty "demo" = false
      ∧ is_job_queued_or_running stEmpty "demo"
        = .error (.attributeError "is_queued_or_running") :=
  ⟨rfl, c2_queued_or_running_faults_on_absent_job stEmpty "demo" rfl⟩

/-- C3: the claim states that when authentication against the base URL fails with
an HTTP error, the provider logs the failure, stores an absent handle and
propagates no exception.  The code violates this: `Jenkins(...)` (which
authenticates eagerly) is evaluated before the try block, whose body cannot raise
`requests.HTTPError`, so the authentication error propagates to the caller and the
handler that would store None never runs; construction does not always succeed. -/
theorem c3_model_post_init_propagates_auth_error :
    model_post_init (Except.error () : Except Unit Nat) = Except.error ()
      ∧ model_post_init (Except.ok (0 : Nat)) = Except.ok (some 0) :=
  ⟨rfl, rfl⟩

/-- C4: search_job filters by literal substring containment — the result on the
global path equals the filter of the source job list by literal containment of the
search string, in source order — and regex metacharacters are not interpreted:
searching the pattern a.b does not match the job name axb, although the regex
engine would accept axb against the unescaped pattern. -/
theorem c4_search_job_literal_substring (env : HttpEnv) (st : Server) (s : String) :
    search_job env st s none true
        = (st.jobs.map Job.name).filter (fun j => litContains s.toList j.toList)
      ∧ search_job env stAxb "a.b" none true = []
      ∧ reSearch (parseDotRegex "a.b") "axb".toList = true := by
  refine ⟨?_, rfl, rfl⟩
  simp only [search_job, pyTruthyStr, Bool.false_eq_true, if_false, searchFilter,
    if_pos]
  exact List.filter_congr (fun j _ => reSearch_reEscape s j.toList)

/-- C5: get_jobs_from_view returns an empty list when the view resolves (globally,
or via the per-user fallback document) but has no member jobs, and returns absent
— never an empty list — when the view resolves on neither path, including when the
fallback HTTP request fails with an HTTPError. -/
theorem c5_jobs_from_view_empty_vs_absent (env : HttpEnv) (st : Server)
    (vn : String) :
    (get_view st vn = some [] → get_jobs_from_view env st vn = some [])
      ∧ (∀ d : MyViewDoc, get_view st vn = none → env vn = .ok d →
          get_jobs_from_view env st vn = some (d.jobs.filterMap (fun e => e.name)))
      ∧ (get_view st vn = none → env vn = .error () →
          get_jobs_from_view env st vn = none) := by
  refine ⟨fun h => ?_, fun d h1 h2 => ?_, fun h1 h2 => ?_⟩ <;>
    simp [get_jobs_from_view, *]

theorem c5_witness :
    get_jobs_from_view envErr stDemo "v" = some []
      ∧ get_jobs_from_view envEmptyDoc stDemo "u" = some []
      ∧ get_jobs_from_view envErr stDemo "u" = none :=
  ⟨(c5_jobs_from_view_empty_vs_absent envErr stDemo "v").1 rfl,
   (c5_jobs_from_view_empty_vs_absent envEmptyDoc stDemo "u").2.1 ⟨[]⟩ rfl rfl,
   (c5_jobs_from_view_empty_vs_absent envErr stDemo "u").2.2 rfl rfl⟩

/-- C6: stop_last_build returns false and issues no stop call when the job cannot
be resolved or when it resolves but has no last build; otherwise it issues the
stop and returns the stop call's boolean result (the second component of the
embedding records whether the remote stop call was issued). -/
theorem c6_stop_last_build_spec (stopEnv : Build → Bool) (st : Server)
    (jobName : String) :
    (get_job st jobName = none → stop_last_build stopEnv st jobName = (false, false))
      ∧ (∀ j : Job, get_job st jobName = some j → lastBuildOrNone j = none →
          stop_last_build stopEnv st jobName = (false, false))
      ∧ (∀ (j : Job) (b : Build), get_job st jobName = some j →
          lastBuildOrNone j = some b →
          stop_last_build stopEnv st jobName = (stopEnv b, true)) := by
  refine ⟨fun h => ?_, fun j h1 h2 => ?_, fun j b h1 h2 => ?_⟩ <;>
    simp [stop_last_build, *]

theorem c6_witness :
    stop_last_build stopAlways stDemo "missing" = (false, false)
      ∧ stop_last_build stopAlways stDemo "fresh" = (false, false)
      ∧ stop_last_build stopAlways stDemo "demo" = (true, true) :=
  ⟨(c6_stop_last_build_spec stopAlways stDemo "missing").1 rfl,
   (c6_stop_last_build_spec stopAlways stDemo "fresh").2.1 jFresh rfl rfl,
   (c6_stop_last_build_spec stopAlways stDemo "demo").2.2 jDemo bDemo rfl rfl⟩

/-- C7: for a job name not present on the server, is_job_exists returns false,
get_job and get_job_default_params return absent, and the mutators (clone, rename,
delete, build-trigger) return absent or false, all without raising. -/
theorem c7_absent_job_all_sentinels (env : RemoteEnv) (st : Server)
    (jobName newJobName : String) (params : Option (List (String × String)))
    (h : ∀ j ∈ st.jobs, j.name ≠ jobName) :
    is_job_exists st jobName = false
      ∧ get_job st jobName = none
      ∧ get_job_default_params st jobName = none
      ∧ clone_job env st jobName newJobName = none
      ∧ rename_job env st jobName newJobName = none
      ∧ delete_job env st jobName = false
      ∧ build_job env st jobName params = false := by
  have hex : is_job_exists st jobName = false := by
    simp only [is_job_exists, List.any_eq_false]
    intro j hj
    simpa using h j hj
  exact ⟨hex, by simp [get_job, hex], by simp [get_job_default_params, hex],
    by simp [clone_job, hex], by simp [rename_job, hex],
    by simp [delete_job, hex], by simp [build_job, hex]⟩

theorem c7_witness :
    is_job_exists stEmpty "demo" = false
      ∧ get_job stEmpty "demo" = none
      ∧ get_job_default_params stEmpty "demo" = none
      ∧ clone_job remoteEnvFail stEmpty "demo" "demo2" = none
      ∧ rename_job remoteEnvFail stEmpty "demo" "demo2" = none
      ∧ delete_job remoteEnvFail stEmpty "demo" = false
      ∧ build_job remoteEnvFail stEmpty "demo" none = false :=
  c7_absent_job_all_sentinels remoteEnvFail stEmpty "demo" "demo2" none
    (by intro j hj; simp [stEmpty] at hj)

/-- C8: for the same search string and the same resolved source job list, the
case-insensitive search result of search_job is a superset of the case-sensitive
one: every name returned with is_case_sensitive true is also returned with
is_case_sensitive false. -/
theorem c8_search_job_ci_superset (env : HttpEnv) (st : Server) (s : String)
    (vn : Option String) (j : String)
    (h : j ∈ search_job env st s vn true) :
    j ∈ search_job env st s vn false := by
  by_cases hv : pyTruthyStr vn = true
  · cases vn with
    | none => simp [pyTruthyStr] at hv
    | some v =>
      simp only [search_job, hv, if_pos] at h ⊢
      rcases hgv : get_view st v with _ | view
      · rcases hjv : get_jobs_from_view env st v with _ | jobsList
        · simp [hgv, hjv] at h
        · simp only [hgv, hjv] at h ⊢
          exact mem_searchFilter_ci h
      · simp only [hgv] at h ⊢
        exact mem_searchFilter_ci h
  · simp only [search_job, hv, if_neg, Bool.false_eq_true, if_false] at h ⊢
    exact mem_searchFilter_ci h

theorem c8_witness : "Abc" ∈ search_job envErr stAbc "b" none false :=
  c8_search_job_ci_superset envErr stAbc "b" none "Abc" (by decide)

/-- C9: for a job that resolves and has exactly one build, get_build with
build_number None and get_build with that build's number return the same build
data. -/
theorem c9_get_build_last_eq_numbered (st : Server) (jobName : String) (j : Job)
    (b : Build) (h1 : get_job st jobName = some j) (h2 : j.builds = [b]) :
    get_build st jobName none = .ok (some b)
      ∧ get_build st jobName (some b.number) = .ok (some b) :=
  ⟨by simp [get_build, h1, lastBuildOrNone, h2],
   by simp [get_build, h1, getBuildByNumber, h2, List.find?]⟩

theorem c9_witness :
    get_build stDemo "demo" none = .ok (some bDemo)
      ∧ get_build stDemo "demo" (some 7) = .ok (some bDemo) :=
  c9_get_build_last_eq_numbered stDemo "demo" jDemo bDemo rfl rfl

/-- C10: the registered view tool get_jobs_from_view renders the same message
when the facade returns an empty list (view resolved, no member jobs) as when it
returns absent (view unresolved), so the facade's empty-versus-absent distinction
is not observable at the tool boundary. -/
theorem c10_view_tool_collapses_empty_and_absent (env : HttpEnv) (st : Server)
    (vn : String)
    (h : get_jobs_from_view env st vn = some []
      ∨ get_jobs_from_view env st vn = none) :
    tool_get_jobs_from_view env st vn = s!"No jobs found in view {vn}." := by
  cases h with
  | inl h => simp [tool_get_jobs_from_view, h, pyTruthyListOpt]
  | inr h => simp [tool_get_jobs_from_view, h, pyTruthyListOpt]

theorem c10_witness :
    tool_get_jobs_from_view envErr stDemo "v" = "No jobs found in view v."
      ∧ tool_get_jobs_from_view envErr stDemo "nope" = "No jobs found in view nope." :=
  ⟨c10_view_tool_collapses_empty_and_absent envErr stDemo "v" (Or.inl rfl),
   c10_view_tool_collapses_empty_and_absent envErr stDemo "nope" (Or.inr rfl)⟩

end McpJenkins
